import Mathlib

/-!
Verification of the SolarPal backend (src/backend/main.py) against its
specification.

Embedding conventions:
* Python floats are modelled as exact rationals (`ℚ`).  Python's
  `statistics.mean` computes an exact rational mean internally, and every
  numeric fact proved below is decided far from any binary-rounding
  boundary, so the rational model agrees with the float implementation on
  all inputs considered.
* Python `int(x)` truncates toward zero; it is modelled by `pyTrunc`.
* Python `round(x, n)` rounds half to even; it is modelled by `pyRound`.
* Fallible Python code is modelled with `Except PyExc`.  A `try/except`
  block is modelled by a `_body` function returning `Except PyExc α`
  plus a wrapper that dispatches on the raised exception exactly as the
  `except` clauses do.  Note that FastAPI's `HTTPException` is a subclass
  of `Exception`, so a blanket `except Exception` clause catches it; the
  wrappers reproduce that behaviour faithfully.
* Fields of responses that are derived from the wall clock
  (`period`, `analysis_note`, `last_updated`, timestamps) and the static
  `metadata` block are omitted: they are presentational and no claim
  refers to them.  The interpolated `str(e)` suffixes of the generic
  error details are likewise omitted; the HTTP status codes are modelled
  exactly.
-/

/-- Python `int()` conversion on a rational: truncation toward zero. -/
def pyTrunc (q : ℚ) : ℤ := if 0 ≤ q then ⌊q⌋ else ⌈q⌉

/-- Round to the nearest integer, ties to even — the rounding used by
Python's built-in `round`. -/
def roundHalfEven (q : ℚ) : ℤ :=
  if q - ⌊q⌋ < 1/2 then ⌊q⌋
  else if 1/2 < q - ⌊q⌋ then ⌊q⌋ + 1
  else if 2 ∣ ⌊q⌋ then ⌊q⌋ else ⌊q⌋ + 1

/-- Python `round(q, n)` for a nonnegative number of decimal digits. -/
def pyRound (q : ℚ) (n : ℕ) : ℚ := (roundHalfEven (q * 10 ^ n) : ℚ) / 10 ^ n

/-- Python `statistics.mean` (exact; `statistics.mean` works on exact
fractions internally).  Call sites guard against the empty list, on which
Python raises `StatisticsError`. -/
def pyMean (l : List ℚ) : ℚ := l.sum / l.length

/-- Python `max` on a list of ints.  Python raises `ValueError` on an
empty list; every call site below is guarded by a nonemptiness check, so
the `[]` branch is unreachable. -/
def pyMax : List ℤ → ℤ
  | [] => 0
  | x :: xs => xs.foldl max x

/-- Python `min` on a list of ints; see `pyMax` for the `[]` branch. -/
def pyMin : List ℤ → ℤ
  | [] => 0
  | x :: xs => xs.foldl min x

/-- The Python exceptions that can be raised by the code under study. -/
inductive PyExc where
  | timeoutException
  | httpStatusError (status : ℤ)
  | httpException (status : ℤ) (detail : String)
  | zeroDivisionError
  | valueError
  | keyError

/-- Result record of `calculate_solar_score`. -/
structure SolarAnalysis where
  score : ℤ
  rating : String
  recommendation : String
  consistency_score : ℚ
  min_irradiance : ℚ
  max_irradiance : ℚ
  estimated_annual_kwh_per_kw : ℚ

/-- `calculate_solar_score` from src/backend/main.py.  `min(daily_values)`
and `max(daily_values)` raise `ValueError` on an empty list, and the
consistency formula divides by `avg_irradiance`, raising
`ZeroDivisionError` when the mean is zero; both are modelled as
`Except.error`.  (Python computes the band score before calling `min`;
the band computation is total, so hoisting the empty-list case first is
observationally identical.) -/
def calculate_solar_score (avg_irradiance : ℚ) :
    List ℚ → Except PyExc SolarAnalysis
  | [] => Except.error PyExc.valueError
  | x :: xs =>
    let srr : ℤ × String × String :=
      if avg_irradiance ≥ 5.5 then
        (min 100 (pyTrunc (avg_irradiance / 6.5 * 100)), "Excellent",
          "Outstanding location for solar installation. High energy yield expected.")
      else if avg_irradiance ≥ 4.5 then
        (pyTrunc (avg_irradiance / 5.5 * 85), "Good",
          "Suitable for solar installation. Good energy yield expected.")
      else if avg_irradiance ≥ 3.5 then
        (pyTrunc (avg_irradiance / 4.5 * 65), "Fair",
          "Moderate potential for solar panels. Consider local factors.")
      else
        (pyTrunc (avg_irradiance / 3.5 * 40), "Low",
          "Limited solar potential. Consider alternative energy sources.")
    let min_irradiance := xs.foldl min x
    let max_irradiance := xs.foldl max x
    if avg_irradiance = 0 then Except.error PyExc.zeroDivisionError
    else
      let consistency := 100 - (max_irradiance - min_irradiance) / avg_irradiance * 50
      let annual_kwh_estimate := avg_irradiance * 365 * 0.85
      Except.ok
        { score := max 0 srr.1
          rating := srr.2.1
          recommendation := srr.2.2
          consistency_score := max 0 (min 100 (pyRound consistency 1))
          min_irradiance := pyRound min_irradiance 2
          max_irradiance := pyRound max_irradiance 2
          estimated_annual_kwh_per_kw := pyRound annual_kwh_estimate 0 }

/-- Python `f"{q:.2f}"`: fixed-point rendering with two decimals. -/
def format2dp (q : ℚ) : String :=
  let r := roundHalfEven (q * 100)
  let sign := if r < 0 then "-" else ""
  let n := r.natAbs
  let frac := n % 100
  sign ++ toString (n / 100) ++ "." ++ (if frac < 10 then "0" else "") ++ toString frac

/-- `get_location_name` from src/backend/main.py. -/
def get_location_name (lat lon : ℚ) : String :=
  if 14.5 ≤ lat ∧ lat ≤ 14.8 ∧ 120.9 ≤ lon ∧ lon ≤ 121.1 then "Metro Manila"
  else if 10.2 ≤ lat ∧ lat ≤ 10.4 ∧ 123.8 ≤ lon ∧ lon ≤ 124.0 then "Cebu City"
  else if 7.0 ≤ lat ∧ lat ≤ 7.2 ∧ 125.5 ≤ lon ∧ lon ≤ 125.7 then "Davao City"
  else if 16.3 ≤ lat ∧ lat ≤ 16.5 ∧ 120.5 ≤ lon ∧ lon ≤ 120.7 then "Baguio City"
  else "Philippines (" ++ format2dp lat ++ ", " ++ format2dp lon ++ ")"

/-- A FastAPI `HTTPException` as surfaced to the client. -/
structure HttpError where
  status : ℤ
  detail : String

/-- Outcome of one round-trip to the NASA POWER API, as observed by the
code after `client.get`/`raise_for_status`/`response.json()`:
a transport timeout, a non-success status, a well-formed JSON body whose
`properties.parameter.ALLSKY_SFC_SW_DWN` mapping has the given values
(in insertion order), or a body of unexpected shape (`KeyError` on
subscripting). -/
inductive Upstream where
  | timeout
  | httpStatusError (status : ℤ)
  | ok (daily_values : List ℚ)
  | malformed

/-- The JSON object returned by `get_solar_data` (clock-derived fields
omitted, see the header). -/
structure SolarResponse where
  location : String
  latitude : ℚ
  longitude : ℚ
  avg_irradiance : ℚ
  solar_score : ℤ
  rating : String
  recommendation : String
  consistency_score : ℚ
  min_irradiance : ℚ
  max_irradiance : ℚ
  estimated_annual_kwh_per_kw : ℚ
  data_points : ℕ

/-- The `try:` block of `get_solar_data` in src/backend/main.py: filter
the sentinel −999.0, raise `HTTPException(404)` when nothing remains,
otherwise score the filtered series. -/
def get_solar_data_body (lat lon : ℚ) (u : Upstream) :
    Except PyExc SolarResponse :=
  match u with
  | Upstream.timeout => Except.error PyExc.timeoutException
  | Upstream.httpStatusError s => Except.error (PyExc.httpStatusError s)
  | Upstream.malformed => Except.error PyExc.keyError
  | Upstream.ok daily_values =>
    let irradiance_values := daily_values.filter (fun v => v ≠ -999)
    if irradiance_values = [] then
      Except.error (PyExc.httpException 404 "No valid solar data available for this location")
    else
      let avg_irradiance := pyMean irradiance_values
      match calculate_solar_score avg_irradiance irradiance_values with
      | Except.error e => Except.error e
      | Except.ok solar_analysis =>
        Except.ok
          { location := get_location_name lat lon
            latitude := lat
            longitude := lon
            avg_irradiance := pyRound avg_irradiance 2
            solar_score := solar_analysis.score
            rating := solar_analysis.rating
            recommendation := solar_analysis.recommendation
            consistency_score := solar_analysis.consistency_score
            min_irradiance := solar_analysis.min_irradiance
            max_irradiance := solar_analysis.max_irradiance
            estimated_annual_kwh_per_kw := solar_analysis.estimated_annual_kwh_per_kw
            data_points := irradiance_values.length }

/-- `get_solar_data` from src/backend/main.py: range validation outside
the `try`, then the `except` ladder.  `httpx.TimeoutException` maps to
408 and `httpx.HTTPStatusError` to 502; every other exception — including
an `HTTPException` raised inside the `try`, since FastAPI's
`HTTPException` subclasses `Exception` — falls to the blanket
`except Exception` clause, which raises `HTTPException(500)`. -/
def get_solar_data (lat lon : ℚ) (u : Upstream) : Except HttpError SolarResponse :=
  if ¬ (5 ≤ lat ∧ lat ≤ 21) then
    Except.error { status := 400, detail := "Latitude must be within Philippines range (5°-21°N)" }
  else if ¬ (117 ≤ lon ∧ lon ≤ 127) then
    Except.error { status := 400, detail := "Longitude must be within Philippines range (117°-127°E)" }
  else
    match get_solar_data_body lat lon u with
    | Except.ok r => Except.ok r
    | Except.error PyExc.timeoutException =>
      Except.error { status := 408, detail := "NASA API request timed out. Please try again." }
    | Except.error (PyExc.httpStatusError _) =>
      Except.error { status := 502, detail := "NASA API error" }
    | Except.error _ =>
      Except.error { status := 500, detail := "Internal server error" }

/-- An entry of the static `sampling_points` catalog. -/
structure SamplingPoint where
  name : String
  lat : ℚ
  lng : ℚ
  region : String

/-- The record returned by a successful `fetch_solar_data_for_point`. -/
structure PointResult where
  name : String
  region : String
  lat : ℚ
  lng : ℚ
  avg_irradiance : ℚ
  solar_score : ℤ
  rating : String
  recommendation : String
  consistency_score : ℚ
  min_irradiance : ℚ
  max_irradiance : ℚ
  data_points : ℕ

/-- The `try:` block of `fetch_solar_data_for_point`: the same upstream
interaction and sentinel filtering as `get_solar_data_body`, but an
all-sentinel series returns `None` instead of raising. -/
def fetch_solar_data_for_point_body (point : SamplingPoint) (u : Upstream) :
    Except PyExc (Option PointResult) :=
  match u with
  | Upstream.timeout => Except.error PyExc.timeoutException
  | Upstream.httpStatusError s => Except.error (PyExc.httpStatusError s)
  | Upstream.malformed => Except.error PyExc.keyError
  | Upstream.ok daily_values =>
    let irradiance_values := daily_values.filter (fun v => v ≠ -999)
    if irradiance_values = [] then Except.ok none
    else
      let avg_irradiance := pyMean irradiance_values
      match calculate_solar_score avg_irradiance irradiance_values with
      | Except.error e => Except.error e
      | Except.ok solar_analysis =>
        Except.ok (some
          { name := point.name
            region := point.region
            lat := point.lat
            lng := point.lng
            avg_irradiance := pyRound avg_irradiance 2
            solar_score := solar_analysis.score
            rating := solar_analysis.rating
            recommendation := solar_analysis.recommendation
            consistency_score := solar_analysis.consistency_score
            min_irradiance := solar_analysis.min_irradiance
            max_irradiance := solar_analysis.max_irradiance
            data_points := irradiance_values.length })

/-- `fetch_solar_data_for_point` from src/backend/main.py: the whole body
sits inside `try: ... except Exception: return None`, so every exception
is swallowed and mapped to `None`. -/
def fetch_solar_data_for_point (point : SamplingPoint) (u : Upstream) :
    Option PointResult :=
  match fetch_solar_data_for_point_body point u with
  | Except.ok r => r
  | Except.error _ => none

/-- Python `s.replace(' ', '-')`. -/
def hyphenate (s : String) : String :=
  String.map (fun c => if c = ' ' then '-' else c) s

/-- A zone record built by `create_zone_from_data` (the `last_updated`
timestamp is omitted, see the header). -/
structure Zone where
  id : String
  name : String
  region : String
  type : String
  color : String
  score : ℤ
  coordinates : List (ℚ × ℚ)
  center : ℚ × ℚ
  avg_irradiance : ℚ
  rating : String
  recommendation : String
  consistency_score : ℚ
  min_irradiance : ℚ
  max_irradiance : ℚ
  data_source : String

/-- `create_zone_from_data` from src/backend/main.py. -/
def create_zone_from_data (data : PointResult) : Zone :=
  let tc : String × String :=
    if data.solar_score ≥ 85 then ("excellent", "#22c55e")
    else if data.solar_score ≥ 70 then ("good", "#eab308")
    else if data.solar_score ≥ 55 then ("fair", "#f97316")
    else ("low", "#ef4444")
  let lat := data.lat
  let lng := data.lng
  let coordinates :=
    [(lat + 0.5, lng - 0.5), (lat + 0.5, lng + 0.5),
     (lat - 0.5, lng + 0.5), (lat - 0.5, lng - 0.5)]
  { id := "nasa-" ++ hyphenate data.region.toLower
    name := data.name
    region := data.region
    type := tc.1
    color := tc.2
    score := data.solar_score
    coordinates := coordinates
    center := (lat, lng)
    avg_irradiance := data.avg_irradiance
    rating := data.rating
    recommendation := data.recommendation
    consistency_score := data.consistency_score
    min_irradiance := data.min_irradiance
    max_irradiance := data.max_irradiance
    data_source := "NASA POWER API" }

/-- The `statistics` block of the `get_solar_zones` response
(`last_updated` omitted, see the header). -/
structure ZoneStatistics where
  total_zones : ℕ
  avg_solar_score : ℚ
  avg_irradiance : ℚ
  max_score : ℤ
  min_score : ℤ
  data_source : String

/-- The JSON object returned by `get_solar_zones` (static `metadata`
block omitted, see the header). -/
structure ZonesResponse where
  zones : List Zone
  statistics : ZoneStatistics

/-- What `asyncio.gather(..., return_exceptions=True)` delivers for one
task: either the exception the task raised, or its return value. -/
abbrev FetchOutcome := Except PyExc (Option PointResult)

/-- The result-processing loop of `get_solar_zones`: exceptions are
skipped (`continue`), falsy results (`None`) are skipped, and each truthy
result is appended, preserving input order. -/
def collectSuccesses : List FetchOutcome → List PointResult
  | [] => []
  | Except.ok (some d) :: rest => d :: collectSuccesses rest
  | Except.ok none :: rest => collectSuccesses rest
  | Except.error _ :: rest => collectSuccesses rest

/-- A per-point outcome that the aggregation loop drops: an exception or
a `None` result. -/
def isFetchFailure : FetchOutcome → Bool
  | Except.ok (some _) => false
  | _ => true

/-- The `try:` block of `get_solar_zones`: build zones from the
successful results, then either compute statistics or — when no point
succeeded — raise `HTTPException(503)`. -/
def get_solar_zones_body (results : List FetchOutcome) :
    Except PyExc ZonesResponse :=
  let successful_results := collectSuccesses results
  let zones := successful_results.map create_zone_from_data
  match successful_results with
  | [] => Except.error (PyExc.httpException 503 "Unable to fetch solar data for any regions")
  | s :: rest =>
    let scores := (s :: rest).map PointResult.solar_score
    let irradiances := (s :: rest).map PointResult.avg_irradiance
    Except.ok
      { zones := zones
        statistics :=
          { total_zones := zones.length
            avg_solar_score := pyRound (pyMean (scores.map (fun z : ℤ => (z : ℚ)))) 1
            avg_irradiance := pyRound (pyMean irradiances) 2
            max_score := pyMax scores
            min_score := pyMin scores
            data_source := "NASA POWER API" } }

/-- `get_solar_zones` from src/backend/main.py: the whole handler body is
wrapped in `try: ... except Exception: raise HTTPException(500, ...)`.
Because `HTTPException` subclasses `Exception`, the 503 raised inside the
`try` is itself caught here and replaced by a 500. -/
def get_solar_zones (results : List FetchOutcome) :
    Except HttpError ZonesResponse :=
  match get_solar_zones_body results with
  | Except.ok r => Except.ok r
  | Except.error _ =>
    Except.error { status := 500, detail := "Failed to generate solar zones" }

/-- The static `sampling_points` catalog of `get_solar_zones`. -/
def sampling_points : List SamplingPoint :=
  [{ name := "Metro Manila", lat := 14.5995, lng := 120.9842, region := "NCR" },
   { name := "Central Luzon Plains", lat := 15.3, lng := 120.9, region := "Central Luzon" },
   { name := "Ilocos Coast", lat := 17.3, lng := 120.6, region := "Ilocos" },
   { name := "Cagayan Valley", lat := 17.2, lng := 121.8, region := "Cagayan Valley" },
   { name := "Cordillera Mountains", lat := 16.8, lng := 121.0, region := "CAR" },
   { name := "Bicol Peninsula", lat := 13.3, lng := 123.7, region := "Bicol" },
   { name := "Southern Tagalog", lat := 14.1, lng := 121.5, region := "CALABARZON" },
   { name := "Western Visayas", lat := 11.2, lng := 122.5, region := "Western Visayas" },
   { name := "Central Visayas", lat := 10.3, lng := 123.9, region := "Central Visayas" },
   { name := "Eastern Visayas", lat := 11.6, lng := 125.0, region := "Eastern Visayas" },
   { name := "Negros Island", lat := 10.3, lng := 123.1, region := "Negros" },
   { name := "Bohol Island", lat := 9.8, lng := 124.1, region := "Bohol" },
   { name := "Northern Mindanao", lat := 8.7, lng := 124.7, region := "Northern Mindanao" },
   { name := "Davao Region", lat := 7.3, lng := 125.7, region := "Davao" },
   { name := "SOCCSKSARGEN", lat := 6.7, lng := 124.8, region := "SOCCSKSARGEN" },
   { name := "Caraga Region", lat := 9.0, lng := 125.8, region := "Caraga" },
   { name := "Zamboanga Peninsula", lat := 7.8, lng := 123.1, region := "Zamboanga" },
   { name := "ARMM Region", lat := 7.2, lng := 124.3, region := "ARMM" },
   { name := "Palawan", lat := 9.8, lng := 118.7, region := "MIMAROPA" },
   { name := "Mindoro", lat := 13.0, lng := 121.0, region := "Mindoro" },
   { name := "Masbate", lat := 12.4, lng := 123.6, region := "Masbate" }]

/-- A concrete catalog entry, used to instantiate the theorems below on
concrete inputs. -/
def samplePoint : SamplingPoint :=
  { name := "Metro Manila"
    lat := 14.5995
    lng := 120.9842
    region := "NCR" }

/-- The point result `fetch_solar_data_for_point` produces for
`samplePoint` when the upstream series is the single reading 5.5. -/
def samplePointResult : PointResult :=
  { name := "Metro Manila"
    region := "NCR"
    lat := 14.5995
    lng := 120.9842
    avg_irradiance := 5.5
    solar_score := 84
    rating := "Excellent"
    recommendation := "Outstanding location for solar installation. High energy yield expected."
    consistency_score := 100
    min_irradiance := 5.5
    max_irradiance := 5.5
    data_points := 1 }

/-- `samplePointResult` with its solar score replaced, for exercising the
zone-classification thresholds. -/
def scoredPoint (s : ℤ) : PointResult := { samplePointResult with solar_score := s }

/-- The analysis `calculate_solar_score` produces for the one-element
series [5.0] (Good band). -/
def goodSample : SolarAnalysis :=
  { score := 77
    rating := "Good"
    recommendation := "Suitable for solar installation. Good energy yield expected."
    consistency_score := 100
    min_irradiance := 5
    max_irradiance := 5
    estimated_annual_kwh_per_kw := 1551 }

/-- A gather outcome in which every sampling point of the catalog yielded
`None` (every fetch failed). -/
def all_failed_results : List FetchOutcome := sampling_points.map (fun _ => Except.ok none)

lemma pyMean_replicate (n : ℕ) (c : ℚ) (h : n ≠ 0) :
    pyMean (List.replicate n c) = c := by
  unfold pyMean
  rw [List.sum_replicate, List.length_replicate, nsmul_eq_mul]
  have hn : (n : ℚ) ≠ 0 := Nat.cast_ne_zero.mpr h
  field_simp

lemma foldl_min_replicate (m : ℕ) (c : ℚ) :
    (List.replicate m c).foldl min c = c := by
  induction m with
  | zero => rfl
  | succ k ih => rw [List.replicate_succ, List.foldl_cons, min_self]; exact ih

lemma foldl_max_replicate (m : ℕ) (c : ℚ) :
    (List.replicate m c).foldl max c = c := by
  induction m with
  | zero => rfl
  | succ k ih => rw [List.replicate_succ, List.foldl_cons, max_self]; exact ih

lemma pyTrunc_nonneg (q : ℚ) (h : 0 ≤ q) : 0 ≤ pyTrunc q := by
  unfold pyTrunc
  rw [if_pos h]
  exact Int.floor_nonneg.mpr h

/-- Closed form of `calculate_solar_score` on a non-empty series whose
mean is nonzero. -/
lemma calculate_solar_score_eq (avg : ℚ) (x : ℚ) (xs : List ℚ) (h0 : avg ≠ 0) :
    calculate_solar_score avg (x :: xs) = Except.ok
      { score := max 0 (if avg ≥ 5.5 then min 100 (pyTrunc (avg / 6.5 * 100))
                        else if avg ≥ 4.5 then pyTrunc (avg / 5.5 * 85)
                        else if avg ≥ 3.5 then pyTrunc (avg / 4.5 * 65)
                        else pyTrunc (avg / 3.5 * 40))
        rating := if avg ≥ 5.5 then "Excellent" else if avg ≥ 4.5 then "Good"
                  else if avg ≥ 3.5 then "Fair" else "Low"
        recommendation :=
          if avg ≥ 5.5 then "Outstanding location for solar installation. High energy yield expected."
          else if avg ≥ 4.5 then "Suitable for solar installation. Good energy yield expected."
          else if avg ≥ 3.5 then "Moderate potential for solar panels. Consider local factors."
          else "Limited solar potential. Consider alternative energy sources."
        consistency_score :=
          max 0 (min 100 (pyRound (100 - (xs.foldl max x - xs.foldl min x) / avg * 50) 1))
        min_irradiance := pyRound (xs.foldl min x) 2
        max_irradiance := pyRound (xs.foldl max x) 2
        estimated_annual_kwh_per_kw := pyRound (avg * 365 * 0.85) 0 } := by
  simp only [calculate_solar_score, if_neg h0]
  split_ifs <;> rfl

lemma collectSuccesses_length (results : List FetchOutcome) :
    (collectSuccesses results).length =
      results.length - results.countP isFetchFailure := by
  induction results with
  | nil => rfl
  | cons r rest ih =>
    have hle : rest.countP isFetchFailure ≤ rest.length := List.countP_le_length _
    match r with
    | Except.ok (some d) =>
      simp [collectSuccesses, List.countP_cons, isFetchFailure, ih]
      omega
    | Except.ok none =>
      simp [collectSuccesses, List.countP_cons, isFetchFailure, ih]
    | Except.error e =>
      simp [collectSuccesses, List.countP_cons, isFetchFailure, ih]

/-- Closed form of `get_solar_zones` when at least one point succeeded. -/
lemma get_solar_zones_eq (results : List FetchOutcome) (s : PointResult)
    (rest : List PointResult) (hsr : collectSuccesses results = s :: rest) :
    get_solar_zones results = Except.ok
      { zones := (s :: rest).map create_zone_from_data
        statistics :=
          { total_zones := ((s :: rest).map create_zone_from_data).length
            avg_solar_score :=
              pyRound (pyMean (((s :: rest).map PointResult.solar_score).map
                (fun z : ℤ => (z : ℚ)))) 1
            avg_irradiance := pyRound (pyMean ((s :: rest).map PointResult.avg_irradiance)) 2
            max_score := pyMax ((s :: rest).map PointResult.solar_score)
            min_score := pyMin ((s :: rest).map PointResult.solar_score)
            data_source := "NASA POWER API" } } := by
  unfold get_solar_zones get_solar_zones_body
  rw [hsr]

lemma create_zone_type (d : PointResult) :
    (create_zone_from_data d).type =
      if d.solar_score ≥ 85 then "excellent"
      else if d.solar_score ≥ 70 then "good"
      else if d.solar_score ≥ 55 then "fair" else "low" := by
  unfold create_zone_from_data
  split_ifs <;> rfl

lemma fetch_body_some_fields (point : SamplingPoint) (u : Upstream) (d : PointResult)
    (h : fetch_solar_data_for_point_body point u = Except.ok (some d)) :
    d.name = point.name ∧ d.region = point.region ∧
      d.lat = point.lat ∧ d.lng = point.lng := by
  cases u with
  | timeout => simp [fetch_solar_data_for_point_body] at h
  | httpStatusError s => simp [fetch_solar_data_for_point_body] at h
  | malformed => simp [fetch_solar_data_for_point_body] at h
  | ok vs =>
    simp only [fetch_solar_data_for_point_body] at h
    split at h
    · simp at h
    · split at h
      · simp at h
      · rw [Except.ok.injEq, Option.some.injEq] at h
        subst h
        exact ⟨rfl, rfl, rfl, rfl⟩

lemma goodSample_eval :
    calculate_solar_score (pyMean [(5:ℚ)]) [(5:ℚ)] = Except.ok goodSample := by
  norm_num [calculate_solar_score, pyMean, pyTrunc, pyRound, roundHalfEven, goodSample]

/-- Claim C1 (code bug): when every sampling-point fetch fails, the
handler body raises the intended 503 service-unavailable error
("AllFailed"), but the blanket exception handler of the same function
catches it — FastAPI's HTTPException subclasses Exception — and the
client receives a 500 instead of the claimed 503. -/
theorem c1_all_points_failed_returns_500_not_503 :
    get_solar_zones_body all_failed_results =
      Except.error (PyExc.httpException 503 "Unable to fetch solar data for any regions") ∧
    get_solar_zones all_failed_results =
      Except.error { status := 500, detail := "Failed to generate solar zones" } ∧
    (503 : ℤ) ≠ 500 := by
  refine ⟨rfl, rfl, by norm_num⟩

/-- Claim C2 (code bug): sentinel −999.0 entries are removed before the
mean and score are computed (first conjunct: of five upstream values only
the three non-sentinel ones are counted and averaged), and an all-sentinel
series raises the intended `NoData` 404 inside the `try` block — but the
blanket exception handler converts it to a 500, so the claimed not-found
status never reaches the client. -/
theorem c2_nodata_404_swallowed_to_500 :
    (get_solar_data_body 14.6 121.0 (Upstream.ok [-999, 4, -999, 5, 6])).toOption.map
        (fun r => (r.data_points, r.avg_irradiance, r.solar_score)) = some (3, 5, 77) ∧
    get_solar_data_body 14.6 121.0 (Upstream.ok [-999, -999]) =
      Except.error (PyExc.httpException 404 "No valid solar data available for this location") ∧
    get_solar_data 14.6 121.0 (Upstream.ok [-999, -999]) =
      Except.error { status := 500, detail := "Internal server error" } ∧
    (404 : ℤ) ≠ 500 := by
  refine ⟨?_, ?_, ?_, by norm_num⟩
  · norm_num [get_solar_data_body, calculate_solar_score, pyMean, pyTrunc, pyRound,
      roundHalfEven, List.filter, Except.toOption]
    simp
  · norm_num [get_solar_data_body, List.filter]
  · norm_num [get_solar_data, get_solar_data_body, List.filter]

/-- Claim C3 counterexample: for the one-element series [5.5] (mean
exactly 5.5) the code returns score 84, while the claimed formula
min(100, round(mean/6.5 × 100)) gives 85 — the code truncates with
`int()`, it does not round to nearest. -/
theorem c3_counterexample_round_at_boundary :
    (calculate_solar_score (pyMean [(5.5:ℚ)]) [(5.5:ℚ)]).toOption.map SolarAnalysis.score
        = some 84 ∧
    min 100 (roundHalfEven (pyMean [(5.5:ℚ)] / 6.5 * 100)) = 85 := by
  constructor
  · norm_num [calculate_solar_score, pyMean, pyTrunc, pyRound, roundHalfEven, Except.toOption]
  · norm_num [pyMean, roundHalfEven]

/-- Claim C3 (amended): for every series whose mean is at least 5.5,
score = min(100, trunc(mean/6.5 × 100)) — Python `int()` truncation, not
rounding to nearest — and rating = Excellent. -/
theorem c3_excellent_band_truncated_score (l : List ℚ) (hne : l ≠ [])
    (h : pyMean l ≥ 5.5) :
    ∃ a, calculate_solar_score (pyMean l) l = Except.ok a ∧
      a.score = min 100 (pyTrunc (pyMean l / 6.5 * 100)) ∧ a.rating = "Excellent" := by
  match l, hne with
  | x :: xs, _ =>
    have h0 : pyMean (x :: xs) ≠ 0 := by
      intro hz; rw [hz] at h; norm_num at h
    have hq : (0:ℚ) ≤ pyMean (x :: xs) / 6.5 * 100 := by
      have hm : (0:ℚ) ≤ pyMean (x :: xs) := le_trans (by norm_num) h
      positivity
    rw [calculate_solar_score_eq _ x xs h0]
    refine ⟨_, rfl, ?_, ?_⟩
    · dsimp only
      rw [if_pos h]
      exact max_eq_right (le_min (by norm_num) (pyTrunc_nonneg _ hq))
    · dsimp only
      rw [if_pos h]

/-- Witness for claim C3 at the concrete series [6.0]. -/
theorem c3_excellent_band_truncated_score_witness :
    ∃ a, calculate_solar_score (pyMean [(6:ℚ)]) [(6:ℚ)] = Except.ok a ∧
      a.score = min 100 (pyTrunc (pyMean [(6:ℚ)] / 6.5 * 100)) ∧ a.rating = "Excellent" :=
  c3_excellent_band_truncated_score [(6:ℚ)] (by simp) (by norm_num [pyMean])

/-- Claim C4 counterexample: for the series [4.0, 5.0, 6.0] the estimated
annual yield is round(5.0 × 365 × 0.85) = round(1551.25) = 1551, not the
claimed 1552. -/
theorem c4_counterexample_annual_yield :
    (calculate_solar_score (pyMean [(4:ℚ), 5, 6]) [4, 5, 6]).toOption.map
        SolarAnalysis.estimated_annual_kwh_per_kw = some 1551 ∧
    roundHalfEven ((5:ℚ) * 365 * 0.85) = 1551 ∧ (1551 : ℚ) ≠ 1552 := by
  refine ⟨?_, ?_, by norm_num⟩
  · norm_num [calculate_solar_score, pyMean, pyTrunc, pyRound, roundHalfEven, Except.toOption]
  · norm_num [roundHalfEven]

/-- Claim C4 (amended): the series [4.0, 5.0, 6.0] yields score 77,
rating Good, min irradiance 4.0, max irradiance 6.0, consistency 80.0,
and estimated annual yield 1551. -/
theorem c4_example_series_evaluation :
    calculate_solar_score (pyMean [(4:ℚ), 5, 6]) [4, 5, 6] =
      Except.ok
        { score := 77
          rating := "Good"
          recommendation := "Suitable for solar installation. Good energy yield expected."
          consistency_score := 80
          min_irradiance := 4
          max_irradiance := 6
          estimated_annual_kwh_per_kw := 1551 } := by
  norm_num [calculate_solar_score, pyMean, pyTrunc, pyRound, roundHalfEven]

/-- Claim C5 (code bug): a series with mean 0 reaches the consistency
formula with no guard at all — the code raises a bare division-by-zero
error, which the blanket exception handler of the endpoint surfaces as a
generic 500 internal error; no dedicated degenerate-series condition is
ever signalled. -/
theorem c5_mean_zero_division_unguarded :
    calculate_solar_score (pyMean [(0:ℚ), 0]) [0, 0] = Except.error PyExc.zeroDivisionError ∧
    get_solar_data 14.6 121.0 (Upstream.ok [0, 0]) =
      Except.error { status := 500, detail := "Internal server error" } := by
  constructor
  · norm_num [calculate_solar_score, pyMean]
  · norm_num [get_solar_data, get_solar_data_body, calculate_solar_score, pyMean, List.filter]
    simp

/-- Claim C6: when K of N point fetches fail with K < N, no failure
aborts the aggregation — the handler returns normally with exactly N − K
zones, and every statistic (mean score, mean irradiance, max score, min
score) is computed over the successful points only. -/
theorem c6_partial_failure_tolerated (results : List FetchOutcome)
    (hK : results.countP isFetchFailure < results.length) :
    ∃ resp, get_solar_zones results = Except.ok resp ∧
      resp.zones = (collectSuccesses results).map create_zone_from_data ∧
      resp.zones.length = results.length - results.countP isFetchFailure ∧
      resp.statistics.total_zones = results.length - results.countP isFetchFailure ∧
      resp.statistics.avg_solar_score =
        pyRound (pyMean ((collectSuccesses results).map (fun d => (d.solar_score : ℚ)))) 1 ∧
      resp.statistics.avg_irradiance =
        pyRound (pyMean ((collectSuccesses results).map PointResult.avg_irradiance)) 2 ∧
      resp.statistics.max_score = pyMax ((collectSuccesses results).map PointResult.solar_score) ∧
      resp.statistics.min_score = pyMin ((collectSuccesses results).map PointResult.solar_score) := by
  have hlen := collectSuccesses_length results
  obtain ⟨s, rest, hsr⟩ : ∃ s rest, collectSuccesses results = s :: rest := by
    cases hcc : collectSuccesses results with
    | nil => rw [hcc] at hlen; simp at hlen; omega
    | cons s rest => exact ⟨s, rest, rfl⟩
  have hlen2 : (s :: rest).length = results.length - results.countP isFetchFailure := by
    rw [← hsr]; exact hlen
  refine ⟨_, get_solar_zones_eq results s rest hsr, ?_, ?_, ?_, ?_, ?_, ?_, ?_⟩
  · dsimp only
    rw [hsr]
  · dsimp only
    rw [List.length_map, hlen2]
  · dsimp only
    rw [List.length_map, hlen2]
  · dsimp only
    rw [hsr, List.map_map]
    rfl
  · dsimp only
    rw [hsr]
  · dsimp only
    rw [hsr]
  · dsimp only
    rw [hsr]

/-- Witness for claim C6: one success among three outcomes yields exactly
one zone. -/
theorem c6_partial_failure_tolerated_witness :
    ∃ resp, get_solar_zones [Except.ok (some samplePointResult),
        Except.error PyExc.timeoutException, Except.ok none] = Except.ok resp ∧
      resp.zones.length = 1 := by
  obtain ⟨resp, h1, _, h3, _⟩ := c6_partial_failure_tolerated
    [Except.ok (some samplePointResult), Except.error PyExc.timeoutException, Except.ok none]
    (by decide)
  refine ⟨resp, h1, ?_⟩
  rw [h3]
  decide

/-- Claim C7: for every non-empty series with positive mean the
consistency score lies in [0, 100] inclusive, and every constant positive
series has consistency score exactly 100. -/
theorem c7_consistency_bounds :
    (∀ l : List ℚ, l ≠ [] → 0 < pyMean l →
      ∃ a, calculate_solar_score (pyMean l) l = Except.ok a ∧
        0 ≤ a.consistency_score ∧ a.consistency_score ≤ 100) ∧
    (∀ (c : ℚ) (n : ℕ), 0 < c → 0 < n →
      ∃ a, calculate_solar_score (pyMean (List.replicate n c)) (List.replicate n c) =
          Except.ok a ∧ a.consistency_score = 100) := by
  constructor
  · intro l hne hpos
    match l, hne with
    | x :: xs, _ =>
      rw [calculate_solar_score_eq _ x xs (ne_of_gt hpos)]
      exact ⟨_, rfl, le_max_left _ _, max_le (by norm_num) (min_le_left _ _)⟩
  · intro c n hc hn
    obtain ⟨m, rfl⟩ := Nat.exists_eq_succ_of_ne_zero (Nat.pos_iff_ne_zero.mp hn)
    have hmean : pyMean (List.replicate (m + 1) c) = c :=
      pyMean_replicate (m + 1) c (Nat.succ_ne_zero m)
    rw [List.replicate_succ] at hmean ⊢
    rw [hmean, calculate_solar_score_eq c c (List.replicate m c) (ne_of_gt hc)]
    refine ⟨_, rfl, ?_⟩
    dsimp only
    rw [foldl_min_replicate, foldl_max_replicate]
    norm_num [pyRound, roundHalfEven]

/-- Witness for claim C7 at the series [1, 2] and the constant series
[2, 2, 2]. -/
theorem c7_consistency_bounds_witness :
    (∃ a, calculate_solar_score (pyMean [(1:ℚ), 2]) [(1:ℚ), 2] = Except.ok a ∧
      0 ≤ a.consistency_score ∧ a.consistency_score ≤ 100) ∧
    (∃ a, calculate_solar_score (pyMean (List.replicate 3 (2:ℚ)))
        (List.replicate 3 (2:ℚ)) = Except.ok a ∧ a.consistency_score = 100) :=
  ⟨c7_consistency_bounds.1 [(1:ℚ), 2] (by simp) (by norm_num [pyMean]),
   c7_consistency_bounds.2 2 3 (by norm_num) (by norm_num)⟩

/-- Claim C8: zone classification is a function of the numeric score
alone, with thresholds score ≥ 85 excellent, 70 ≤ score < 85 good,
55 ≤ score < 70 fair, and score < 55 low. -/
theorem c8_zone_classification_of_score (d : PointResult) :
    (∀ d' : PointResult, d'.solar_score = d.solar_score →
      (create_zone_from_data d').type = (create_zone_from_data d).type) ∧
    (85 ≤ d.solar_score → (create_zone_from_data d).type = "excellent") ∧
    (70 ≤ d.solar_score → d.solar_score < 85 → (create_zone_from_data d).type = "good") ∧
    (55 ≤ d.solar_score → d.solar_score < 70 → (create_zone_from_data d).type = "fair") ∧
    (d.solar_score < 55 → (create_zone_from_data d).type = "low") := by
  refine ⟨?_, ?_, ?_, ?_, ?_⟩
  · intro d' hsc
    rw [create_zone_type, create_zone_type, hsc]
  · intro h
    rw [create_zone_type, if_pos h]
  · intro h1 h2
    rw [create_zone_type, if_neg (by omega), if_pos h1]
  · intro h1 h2
    rw [create_zone_type, if_neg (by omega), if_neg (by omega), if_pos h1]
  · intro h
    rw [create_zone_type, if_neg (by omega), if_neg (by omega), if_neg (by omega)]

/-- Witness for claim C8 at scores 85, 84, 70, 69, 55, 54. -/
theorem c8_zone_classification_of_score_witness :
    (create_zone_from_data (scoredPoint 85)).type = "excellent" ∧
    (create_zone_from_data (scoredPoint 84)).type = "good" ∧
    (create_zone_from_data (scoredPoint 70)).type = "good" ∧
    (create_zone_from_data (scoredPoint 69)).type = "fair" ∧
    (create_zone_from_data (scoredPoint 55)).type = "fair" ∧
    (create_zone_from_data (scoredPoint 54)).type = "low" :=
  ⟨(c8_zone_classification_of_score (scoredPoint 85)).2.1 (by decide),
   (c8_zone_classification_of_score (scoredPoint 84)).2.2.1 (by decide) (by decide),
   (c8_zone_classification_of_score (scoredPoint 70)).2.2.1 (by decide) (by decide),
   (c8_zone_classification_of_score (scoredPoint 69)).2.2.2.1 (by decide) (by decide),
   (c8_zone_classification_of_score (scoredPoint 55)).2.2.2.1 (by decide) (by decide),
   (c8_zone_classification_of_score (scoredPoint 54)).2.2.2.2 (by decide)⟩

/-- Claim C9: every constant series of value 5.5 rates Excellent with
score trunc(5.5/6.5 × 100) = 84; every Good-band series (mean in
[4.5, 5.5)) scores at most 84; hence there is an Excellent-rated point
whose zone classification is "good". -/
theorem c9_excellent_rating_good_zone :
    (∀ n : ℕ, 0 < n →
      ∃ a, calculate_solar_score (pyMean (List.replicate n (5.5:ℚ)))
          (List.replicate n (5.5:ℚ)) = Except.ok a ∧
        a.rating = "Excellent" ∧ a.score = 84) ∧
    (∀ (l : List ℚ) (a : SolarAnalysis), 4.5 ≤ pyMean l → pyMean l < 5.5 →
      calculate_solar_score (pyMean l) l = Except.ok a → a.score ≤ 84) ∧
    (∃ (p : SamplingPoint) (u : Upstream) (d : PointResult),
      fetch_solar_data_for_point p u = some d ∧ d.rating = "Excellent" ∧
        (create_zone_from_data d).type = "good") := by
  refine ⟨?_, ?_, ?_⟩
  · intro n hn
    obtain ⟨m, rfl⟩ := Nat.exists_eq_succ_of_ne_zero (Nat.pos_iff_ne_zero.mp hn)
    have hmean : pyMean (List.replicate (m + 1) (5.5:ℚ)) = 5.5 :=
      pyMean_replicate (m + 1) 5.5 (Nat.succ_ne_zero m)
    rw [List.replicate_succ] at hmean ⊢
    rw [hmean, calculate_solar_score_eq 5.5 5.5 (List.replicate m 5.5) (by norm_num)]
    refine ⟨_, rfl, ?_, ?_⟩
    · dsimp only
      rw [if_pos (by norm_num)]
    · dsimp only
      rw [if_pos (by norm_num)]
      norm_num [pyTrunc]
  · intro l a h45 h55 hok
    match l with
    | [] => simp [calculate_solar_score] at hok
    | x :: xs =>
      have h0 : pyMean (x :: xs) ≠ 0 := by
        intro hz; rw [hz] at h45; norm_num at h45
      rw [calculate_solar_score_eq _ x xs h0] at hok
      rw [Except.ok.injEq] at hok
      subst hok
      dsimp only
      rw [if_neg (not_le.mpr h55), if_pos h45]
      have hq : (0:ℚ) ≤ pyMean (x :: xs) / 5.5 * 85 := by
        have hm : (0:ℚ) ≤ pyMean (x :: xs) := le_trans (by norm_num) h45
        positivity
      have hlt : pyMean (x :: xs) / 5.5 * 85 < 85 := by
        have hr : pyMean (x :: xs) / 5.5 < 1 := (div_lt_one (by norm_num)).mpr h55
        calc pyMean (x :: xs) / 5.5 * 85 < 1 * 85 :=
              mul_lt_mul_of_pos_right hr (by norm_num)
          _ = 85 := one_mul 85
      have hfl : pyTrunc (pyMean (x :: xs) / 5.5 * 85) < 85 := by
        unfold pyTrunc
        rw [if_pos hq]
        exact Int.floor_lt.mpr (by exact_mod_cast hlt)
      have hge := pyTrunc_nonneg _ hq
      exact max_le (by norm_num) (by omega)
  · refine ⟨samplePoint, Upstream.ok [5.5], samplePointResult, ?_, rfl, ?_⟩
    · norm_num [fetch_solar_data_for_point, fetch_solar_data_for_point_body,
        calculate_solar_score, pyMean, pyTrunc, pyRound, roundHalfEven, List.filter,
        samplePoint, samplePointResult]
    · norm_num [create_zone_from_data, samplePointResult]

/-- Witness for claim C9: the constant series [5.5] and the Good-band
series [5.0]. -/
theorem c9_excellent_rating_good_zone_witness :
    (∃ a, calculate_solar_score (pyMean (List.replicate 1 (5.5:ℚ)))
        (List.replicate 1 (5.5:ℚ)) = Except.ok a ∧ a.rating = "Excellent" ∧ a.score = 84) ∧
    goodSample.score ≤ 84 :=
  ⟨c9_excellent_rating_good_zone.1 1 (by norm_num),
   c9_excellent_rating_good_zone.2.1 [(5:ℚ)] goodSample (by norm_num [pyMean])
     (by norm_num [pyMean]) goodSample_eval⟩

/-- Claim C10: the per-point fetch always terminates with a result or
`none`: every exception of the body is caught and mapped to `none`, so
nothing propagates to the concurrent join, and a `some` result is a
complete record carrying the identity of the sampled point. -/
theorem c10_fetch_never_propagates (point : SamplingPoint) (u : Upstream) :
    (∀ e, fetch_solar_data_for_point_body point u = Except.error e →
      fetch_solar_data_for_point point u = none) ∧
    (fetch_solar_data_for_point point u = none ∨
      ∃ d, fetch_solar_data_for_point point u = some d ∧
        d.name = point.name ∧ d.region = point.region ∧
        d.lat = point.lat ∧ d.lng = point.lng) := by
  constructor
  · intro e he
    unfold fetch_solar_data_for_point
    rw [he]
  · cases hb : fetch_solar_data_for_point_body point u with
    | error e =>
      left
      unfold fetch_solar_data_for_point
      rw [hb]
    | ok r =>
      cases r with
      | none =>
        left
        unfold fetch_solar_data_for_point
        rw [hb]
      | some d =>
        right
        refine ⟨d, ?_, fetch_body_some_fields point u d hb⟩
        unfold fetch_solar_data_for_point
        rw [hb]

/-- Witness for claim C10: a timed-out fetch yields `none`. -/
theorem c10_fetch_never_propagates_witness :
    fetch_solar_data_for_point samplePoint Upstream.timeout = none :=
  (c10_fetch_never_propagates samplePoint Upstream.timeout).1 PyExc.timeoutException rfl
